import Mathlib

/-!
# otelruntimemetrics: the telemetry bootstrap, main loop and shutdown sequence

A shallow embedding of `main.go`.  The program is one `main` function and one
helper, `newResource`.  Calls into the OpenTelemetry SDK, the Go runtime and
the operating system are external: what each of them returns is read from a
`World` record, and every call the program makes is appended, with the time of
the call, to a trace of events.  The Go rules the program relies on are
embedded as they are in the language: deferred functions run last-in first-out
when `main` unwinds, a closure reads the current value of a captured variable,
and `log.Fatal` ends the process at once, without running deferred functions.
-/

namespace OtelRuntimeMetrics

/-! ## Constants of `main.go` -/

def serviceName : String := "client"
def serviceVersion : String := "0.1.0"
def env : String := "dev"
def otlpAddress : String := "octodev03:4317"
def tracerName : String := "otelruntimemetrics.service.tracer"

/-- The literal span name passed to `Start` in the main loop. -/
def spanName : String := "MyTrace"

/-- The literal `30 * time.Second` of the main loop, in seconds. -/
def sleepPeriod : Nat := 30

/-- The literal `10 * time.Second` given to the periodic readers and to
`runtime.WithMinimumReadMemStatsInterval`, in seconds. -/
def readInterval : Nat := 10

/-- The compile-time switch between the OTLP and the stdout metric exporter. -/
def useOTLPMetricsExporter : Bool := true

/-! ## Resource descriptors -/

/-- An attribute: a key and its value. -/
abbrev KeyValue := String × String

/-- The attributes of a resource descriptor, as an association list; the value
of a key is that of its first entry. -/
abbrev Attrs := List KeyValue

/-- Modelled from the spec: the SDK function `sdkresource.Merge` is not part of the
repository; the spec gives its policy, "later sources override earlier ones on
key collision".  The entries of `b` are kept, and those entries of `a` whose
key `b` does not set. -/
def Merge (a b : Attrs) : Attrs :=
  b ++ a.filter (fun kv => (b.lookup kv.1).isNone)

/-- The three attributes given to `sdkresource.WithAttributes`, under the keys
of `semconv` v1.26.0. -/
def identityAttrs : Attrs :=
  [("service.name", serviceName),
   ("service.version", serviceVersion),
   ("deployment.environment", env)]

/-- Modelled from the spec: the SDK function `sdkresource.New` is not part of the
repository.  It runs the configured detectors in the order of the options and
merges what each returns into the descriptor built so far; a detector that
fails contributes nothing and its error is returned with the descriptor. -/
def sdkresourceNew (detectors : List (Except String Attrs)) : Attrs × Option String :=
  detectors.foldl
    (fun (acc : Attrs × Option String) d =>
      match d with
      | .ok a => (Merge acc.1 a, acc.2)
      | .error e => (acc.1, acc.2.or (some e)))
    ([], none)

/-- What the resource detection of one run finds. -/
structure Detection where
  /-- The descriptor `sdkresource.Default()`. -/
  dflt : Attrs
  /-- The detector `WithFromEnv`, reading `OTEL_RESOURCE_ATTRIBUTES` and
  `OTEL_SERVICE_NAME`. -/
  fromEnv : Except String Attrs
  /-- The detector `WithHost`. -/
  host : Except String Attrs
  /-- The error, if any, of `sdkresource.Merge(sdkresource.Default(), res)`. -/
  mergeErr : Option String

/-- The function `newResource`, returning the Go pair `(*Resource, error)`.
The detectors are those of the options in their order: the attributes, the
environment, the host.  The option `WithSchemaURL` adds no attribute; a
conflict of schema URLs in the last merge is the error `mergeErr`. -/
def newResource (d : Detection) : Option Attrs × Option String :=
  let (res, err) := sdkresourceNew [.ok identityAttrs, d.fromEnv, d.host]
  match err with
  | some e => (none, some ("failed to create resource: " ++ e))
  | none => (some (Merge d.dflt res), d.mergeErr)

/-- The value a descriptor gives to a key. -/
def valueOf (r : Attrs) (k : String) : Option String := r.lookup k

/-- A descriptor contains an attribute when it gives the key of the attribute
the value of the attribute. -/
def Contains (r : Attrs) (kv : KeyValue) : Prop := valueOf r kv.1 = some kv.2

instance (r : Attrs) (kv : KeyValue) : Decidable (Contains r kv) := by
  unfold Contains; infer_instance

/-- The key-wise merge of a list of sources given in merge order: the value of
a key is the one given by the last source that sets it. -/
def keywiseMerge (sources : List Attrs) (k : String) : Option String :=
  sources.foldl (fun acc s => (valueOf s k).or acc) none

/-! ## Execution model of `main` -/

/-- The contexts `main` works with. -/
inductive Ctx
  /-- The value of `context.Background()`. -/
  | background
  /-- The context returned by
  `signal.NotifyContext(context.Background(), os.Interrupt)`. -/
  | notify
  deriving DecidableEq, Repr

/-- The calls `main` makes to the outside, with the arguments that matter and
with what the call returned. -/
inductive Event
  | setenv (key value : String)
  | newResource (failed : Bool)
  | newTraceExporter (endpoint : String) (failed : Bool)
  | newTracerProvider (res : Option Attrs)
  | setTracerProvider
  | newMetricExporter (otlp : Bool) (failed : Bool)
  | newPeriodicReader (interval : Nat)
  | newMeterProvider (res : Option Attrs)
  | setMeterProvider
  | notifyContext
  | logPrint (msg : String)
  | runtimeStart (minInterval : Nat) (failed : Bool)
  | print (msg : String)
  /-- The call `tp.Tracer(tracer).Start(ctx, name)`; `cancelled` tells whether
  `ctx` was cancelled at the time of the call. -/
  | spanStart (tracer name : String) (ctx : Ctx) (cancelled : Bool)
  | spanEnd
  | sleep (seconds : Nat)
  /-- The stop function returned by `signal.NotifyContext`. -/
  | cancel
  /-- The call `metricProvider.Shutdown(ctx)`. -/
  | meterShutdown (ctx : Ctx) (cancelled : Bool) (failed : Bool)
  /-- The call `tp.Shutdown(ctx)`; its error is discarded. -/
  | tracerShutdown (ctx : Ctx) (cancelled : Bool)
  /-- The calls `log.Fatal` and `log.Fatalf`: the message is printed and the
  process exits with status 1. -/
  | fatal (msg : String)
  /-- A call made by the loop body panics and `main` starts to unwind. -/
  | panicked
  deriving DecidableEq

/-- The functions `main` defers. -/
inductive Deferred
  /-- The closure `func() { _ = tp.Shutdown(ctx) }`. -/
  | tpShutdown
  /-- The closure that calls `metricProvider.Shutdown(context.Background())`
  and `log.Fatal` on an error. -/
  | mpShutdown
  /-- The stop function `cancel`. -/
  | cancel
  deriving DecidableEq, Repr

/-- What the outside does in one run: the result of every fallible call, the
time in seconds at which an interrupt signal is delivered, if one is, and the
loop iteration, if any, in which the call to `Start` panics.  A panic is the
one way in which `main` unwinds: the loop has no exit, and `log.Fatal` leaves
the process without unwinding. -/
structure World where
  detection : Detection
  traceExporterErr : Option String
  metricExporterErr : Option String
  runtimeStartErr : Option String
  meterShutdownErr : Option String
  interruptAt : Option Nat
  panicAt : Option Nat

/-- The state of the process. -/
structure State where
  /-- The calls made so far, oldest first, each with the time of the call. -/
  trace : List (Nat × Event)
  /-- Seconds since the process started. -/
  clock : Nat
  /-- The variable `ctx` of `main`. -/
  ctx : Ctx
  /-- Whether the stop function of the notify context has been called. -/
  stopped : Bool
  /-- The deferred functions of `main`, the one deferred last first. -/
  defers : List Deferred
  /-- The number of loop iterations completed. -/
  iter : Nat

/-- How the process stands. -/
inductive Status
  | running
  | exited (code : Nat)
  deriving DecidableEq, Repr

/-- A state of the process together with how the process stands. -/
structure Result where
  final : State
  status : Status

/-- The calls of a run, in order. -/
def Result.events (r : Result) : List Event := r.final.trace.map Prod.snd

def State.emit (st : State) (e : Event) : State :=
  { st with trace := st.trace ++ [(st.clock, e)] }

def State.defer (st : State) (d : Deferred) : State :=
  { st with defers := d :: st.defers }

/-- Whether a context is cancelled in a state: the background context never
is; the notify context is once its stop function has been called or the
interrupt signal has been delivered. -/
def State.cancelled (w : World) (st : State) : Ctx → Bool
  | .background => false
  | .notify =>
    st.stopped ||
      (match w.interruptAt with
       | some t => decide (t ≤ st.clock)
       | none => false)

/-- The state in which `main` starts. -/
def State.init : State :=
  { trace := [], clock := 0, ctx := .background, stopped := false, defers := [], iter := 0 }

/-- The metrics part of `main`, from the declaration of `metricProvider` to
`otel.SetMeterProvider`; `Except.error` carries the state in which the
process exited through `log.Fatalf`. -/
def setupMetrics (w : World) (res : Option Attrs) (st : State) : Except State State :=
  if useOTLPMetricsExporter == false then
    let st := st.emit (.newMetricExporter false w.metricExporterErr.isSome)
    match w.metricExporterErr with
    | some e => .error (st.emit (.fatal ("failed to create metric exporter: " ++ e)))
    | none =>
      let st := st.emit (.newPeriodicReader readInterval)
      let st := st.emit (.newMeterProvider res)
      .ok (st.emit .setMeterProvider)
  else
    let st := st.emit (.newMetricExporter true w.metricExporterErr.isSome)
    match w.metricExporterErr with
    | some e => .error (st.emit (.fatal ("failed to create metric exporter: " ++ e)))
    | none =>
      let st := st.emit (.newPeriodicReader readInterval)
      let st := st.emit (.newMeterProvider res)
      .ok (st.emit .setMeterProvider)

/-- The part of `main` before the loop; `Except.error` carries the state in
which the process exited through `log.Fatal` or `log.Fatalf`. -/
def setup (w : World) : Except State State :=
  let st := State.init.emit (.setenv "OTEL_GO_X_DEPRECATED_RUNTIME_METRICS" "true")
  let st := { st with ctx := .background }
  -- `res, err := newResource(ctx)`: this `err` is never read
  let (res, err) := newResource w.detection
  let st := st.emit (.newResource err.isSome)
  -- `traceExporter, err := otlptracegrpc.New(...)` assigns `err` again
  let err := w.traceExporterErr
  let st := st.emit (.newTraceExporter otlpAddress err.isSome)
  match err with
  | some e => .error (st.emit (.fatal ("failed to initialize exporter: " ++ e)))
  | none =>
    let st := st.emit (.newTracerProvider res)
    let st := st.defer .tpShutdown
    let st := st.emit .setTracerProvider
    match setupMetrics w res st with
    | .error st => .error st
    | .ok st =>
      let st := st.defer .mpShutdown
      let st := { st.emit .notifyContext with ctx := .notify }
      let st := st.defer .cancel
      let st := st.emit (.logPrint "Starting runtime instrumentation:")
      let st := st.emit (.runtimeStart readInterval w.runtimeStartErr.isSome)
      match w.runtimeStartErr with
      | some e => .error (st.emit (.fatal e))
      | none => .ok st

/-- One iteration of the loop `for true`, with the period of the sleep as a
parameter. -/
def loopBody (period : Nat) (w : World) (st : State) : State :=
  let st := st.emit (.print "Sending trace...\n")
  let st := st.emit (.spanStart tracerName spanName st.ctx (st.cancelled w st.ctx))
  let st := st.emit .spanEnd
  let st := st.emit (.print "Sleeping...\n")
  let st := st.emit (.sleep period)
  { st with clock := st.clock + period, iter := st.iter + 1 }

/-- Running deferred functions while `main` unwinds: last deferred first.  The
closure around `tp.Shutdown` reads the variable `ctx` when it runs.  When all
have run, the panic ends the process with status 2; `log.Fatal` in the closure
around the meter provider ends it before that, with status 1. -/
def unwind (w : World) : List Deferred → State → Result
  | [], st => ⟨st, .exited 2⟩
  | .cancel :: ds, st => unwind w ds ({ st with stopped := true }.emit .cancel)
  | .mpShutdown :: ds, st =>
    let st := st.emit
      (.meterShutdown .background (st.cancelled w .background) w.meterShutdownErr.isSome)
    match w.meterShutdownErr with
    | some e => ⟨st.emit (.fatal e), .exited 1⟩
    | none => unwind w ds st
  | .tpShutdown :: ds, st =>
    unwind w ds (st.emit (.tracerShutdown st.ctx (st.cancelled w st.ctx)))

/-- The loop `for true`, observed for at most `fuel` iterations: the loop has
no exit of its own, and leaves only when a call in its body panics. -/
def loop (period : Nat) (w : World) : Nat → State → Result
  | 0, st => ⟨st, .running⟩
  | fuel + 1, st =>
    if w.panicAt = some st.iter then
      unwind w st.defers ((st.emit (.print "Sending trace...\n")).emit .panicked)
    else
      loop period w fuel (loopBody period w st)

/-- The function `main` with the period of the sleep as a parameter. -/
def mainWith (period : Nat) (w : World) (fuel : Nat) : Result :=
  match setup w with
  | .error st => ⟨st, .exited 1⟩
  | .ok st => loop period w fuel st

/-- The function `main`, observed for at most `fuel` loop iterations. -/
def main (w : World) (fuel : Nat) : Result := mainWith sleepPeriod w fuel

/-- A world in which every call succeeds and nothing happens from outside. -/
def calm : World :=
  { detection := ⟨[], .ok [], .ok [], none⟩
    traceExporterErr := none
    metricExporterErr := none
    runtimeStartErr := none
    meterShutdownErr := none
    interruptAt := none
    panicAt := none }

/-- A world in which the call to `Start` panics in the second iteration of the
loop. -/
def panicWorld : World := { calm with panicAt := some 1 }

/-- A world in which the call to `Start` panics in the first iteration of the
loop and the shutdown of the meter provider returns an error. -/
def failingShutdownWorld : World :=
  { calm with panicAt := some 0, meterShutdownErr := some "context deadline exceeded" }

/-- A world in which every call succeeds and an interrupt signal is delivered
65 seconds after the start. -/
def interruptWorld : World := { calm with interruptAt := some 65 }

/-- A world in which `runtime.Start` returns an error. -/
def runtimeStartFailsWorld : World :=
  { calm with runtimeStartErr := some "meter provider not registered" }

/-- A world in which the construction of the trace exporter fails. -/
def traceExporterFailsWorld : World :=
  { calm with traceExporterErr := some "invalid endpoint" }

/-- A world in which the construction of the metric exporter fails. -/
def metricExporterFailsWorld : World :=
  { calm with metricExporterErr := some "invalid endpoint" }

/-- A world in which the environment detector fails on malformed content of
`OTEL_RESOURCE_ATTRIBUTES`, so that `newResource` returns an error. -/
def resourceFailsWorld : World :=
  { calm with detection := ⟨[], .error "missing value", .ok [], none⟩ }

/-- A detection in which `OTEL_SERVICE_NAME` is set to "billing". -/
def envOverrideDetection : Detection :=
  { dflt := [("service.name", "unknown_service:client"), ("telemetry.sdk.language", "go")]
    fromEnv := .ok [("service.name", "billing")]
    host := .ok [("host.name", "octodev03")]
    mergeErr := none }

/-- The two providers. -/
inductive Provider
  | meter
  | tracer
  deriving DecidableEq, Repr

/-- The provider on which an event invokes `Shutdown`, if it does. -/
def Event.shutdownOf : Event → Option Provider
  | .meterShutdown _ _ _ => some .meter
  | .tracerShutdown _ _ => some .tracer
  | _ => none

/-- The events of the loop body. -/
def Event.inLoop : Event → Bool
  | .print _ | .spanStart _ _ _ _ | .spanEnd | .sleep _ => true
  | _ => false

def Event.isSpanStart : Event → Bool
  | .spanStart _ _ _ _ => true
  | _ => false

def Event.isSpanEnd : Event → Bool
  | .spanEnd => true
  | _ => false

/-- The number of spans a run has started. -/
def Result.spansStarted (r : Result) : Nat := r.events.countP Event.isSpanStart

/-- The number of spans a run has started up to time `D`, included. -/
def Result.spansBy (D : Nat) (r : Result) : Nat :=
  r.final.trace.countP (fun te => decide (te.1 ≤ D) && te.2.isSpanStart)

/-- The number of spans started and not yet ended. -/
def openSpans (evs : List Event) : Int :=
  (evs.countP Event.isSpanStart : Int) - (evs.countP Event.isSpanEnd : Int)

/-- No provider has been registered as the process-wide default. -/
def NoProviderRegistered (r : Result) : Prop :=
  Event.setTracerProvider ∉ r.events ∧ Event.setMeterProvider ∉ r.events

/-- The calls of the part of `main` before the loop when both exporters are
constructed, up to and with `runtime.Start`. -/
def setupEvents (w : World) : List Event :=
  [.setenv "OTEL_GO_X_DEPRECATED_RUNTIME_METRICS" "true",
   .newResource (newResource w.detection).2.isSome,
   .newTraceExporter otlpAddress false,
   .newTracerProvider (newResource w.detection).1,
   .setTracerProvider,
   .newMetricExporter true false,
   .newPeriodicReader readInterval,
   .newMeterProvider (newResource w.detection).1,
   .setMeterProvider,
   .notifyContext,
   .logPrint "Starting runtime instrumentation:",
   .runtimeStart readInterval w.runtimeStartErr.isSome]

/-- The events with which `main` unwinds when the call to `Start` panics. -/
def unwindEvents (w : World) : List Event :=
  [.print "Sending trace...\n", .panicked, .cancel,
   .meterShutdown .background false w.meterShutdownErr.isSome] ++
    (match w.meterShutdownErr with
     | some e => [.fatal e]
     | none => [.tracerShutdown .notify true])

/-- The status with which the process ends after `main` has unwound. -/
def unwindStatus (w : World) : Status :=
  match w.meterShutdownErr with
  | some _ => .exited 1
  | none => .exited 2

/-! ## Merging descriptors -/

theorem lookup_filter_unset (b a : Attrs) (k : String) (h : b.lookup k = none) :
    (a.filter (fun kv => (b.lookup kv.1).isNone)).lookup k = a.lookup k := by
  induction a with
  | nil => rfl
  | cons x xs ih =>
    obtain ⟨k1, v1⟩ := x
    by_cases hk : k = k1
    · subst hk
      simp [List.filter_cons, h, List.lookup_cons]
    · have hne : (k == k1) = false := by simpa using hk
      by_cases hb : (b.lookup k1).isNone = true
      · simp [List.filter_cons, hb, List.lookup_cons, hne, ih]
      · simp [List.filter_cons, hb, List.lookup_cons, hne, ih]

theorem valueOf_Merge (a b : Attrs) (k : String) :
    valueOf (Merge a b) k = (valueOf b k).or (valueOf a k) := by
  unfold valueOf Merge
  rw [List.lookup_append]
  cases h : b.lookup k with
  | none => simp [lookup_filter_unset b a k h]
  | some v => simp

/-! ## The loop -/

section LoopLemmas

variable (P : Nat) (w : World)

theorem loopBody_fields (st : State) :
    (loopBody P w st).defers = st.defers ∧ (loopBody P w st).ctx = st.ctx ∧
    (loopBody P w st).stopped = st.stopped ∧ (loopBody P w st).clock = st.clock + P ∧
    (loopBody P w st).iter = st.iter + 1 := by
  simp [loopBody, State.emit]

theorem loopBody_trace (st : State) :
    (loopBody P w st).trace = st.trace ++
      [(st.clock, .print "Sending trace...\n"),
       (st.clock, .spanStart tracerName spanName st.ctx (st.cancelled w st.ctx)),
       (st.clock, .spanEnd),
       (st.clock, .print "Sleeping...\n"),
       (st.clock, .sleep P)] := by
  cases hc : st.ctx <;> simp [loopBody, State.emit, State.cancelled, hc]

theorem iterate_fields (n : Nat) (st : State) :
    ((loopBody P w)^[n] st).defers = st.defers ∧ ((loopBody P w)^[n] st).ctx = st.ctx ∧
    ((loopBody P w)^[n] st).stopped = st.stopped ∧
    ((loopBody P w)^[n] st).clock = st.clock + n * P ∧
    ((loopBody P w)^[n] st).iter = st.iter + n := by
  induction n generalizing st with
  | zero => simp
  | succ n ih =>
    rw [Function.iterate_succ_apply]
    obtain ⟨h1, h2, h3, h4, h5⟩ := ih (loopBody P w st)
    obtain ⟨g1, g2, g3, g4, g5⟩ := loopBody_fields P w st
    refine ⟨by rw [h1, g1], by rw [h2, g2], by rw [h3, g3], ?_, ?_⟩
    · rw [h4, g4]; ring
    · rw [h5, g5]; ring

/-- The loop extends the trace by events of the loop body only. -/
theorem iterate_trace (n : Nat) (st : State) :
    ∃ ext, ((loopBody P w)^[n] st).trace = st.trace ++ ext ∧
      ∀ te ∈ ext, te.2.inLoop = true := by
  induction n generalizing st with
  | zero => exact ⟨[], by simp, by simp⟩
  | succ n ih =>
    rw [Function.iterate_succ_apply]
    obtain ⟨ext, h, hext⟩ := ih (loopBody P w st)
    refine ⟨_, by rw [h, loopBody_trace, List.append_assoc], ?_⟩
    intro te hte
    rw [List.mem_append] at hte
    rcases hte with hte | hte
    · simp at hte
      rcases hte with h | h | h | h | h <;> simp [h, Event.inLoop]
    · exact hext te hte

/-- The loop, unfolded: it runs its body until the iteration that panics, if
that iteration is within the observed ones, and unwinds `main` there. -/
theorem loop_eq (n : Nat) (st : State) :
    loop P w n st =
      match w.panicAt with
      | some k =>
        if st.iter ≤ k ∧ k < st.iter + n then
          unwind w st.defers
            ((((loopBody P w)^[k - st.iter] st).emit (.print "Sending trace...\n")).emit
              .panicked)
        else ⟨(loopBody P w)^[n] st, .running⟩
      | none => ⟨(loopBody P w)^[n] st, .running⟩ := by
  induction n generalizing st with
  | zero =>
    cases h : w.panicAt with
    | none => simp [loop]
    | some k =>
      have hk : ¬ (st.iter ≤ k ∧ k < st.iter + 0) := by omega
      simp only [loop, if_neg hk, Function.iterate_zero, id_eq]
  | succ n ih =>
    cases h : w.panicAt with
    | none =>
      have := ih (loopBody P w st)
      simp only [h] at this
      simp [loop, h, this]
    | some k =>
      have := ih (loopBody P w st)
      simp only [h] at this
      obtain ⟨g1, -, -, -, g5⟩ := loopBody_fields P w st
      by_cases hk : k = st.iter
      · subst hk
        simp [loop, h]
      · have hk2 : ¬ (st.iter = k) := fun h => hk h.symm
        simp only [loop, h, Option.some.injEq, hk, if_false, this, g5, g1]
        by_cases hlt : st.iter + 1 ≤ k ∧ k < st.iter + 1 + n
        · have hlt2 : st.iter ≤ k ∧ k < st.iter + (n + 1) := by omega
          have hsub : k - st.iter = (k - (st.iter + 1)) + 1 := by omega
          rw [if_pos hlt, if_pos hlt2, hsub, Function.iterate_succ_apply]
        · have hlt2 : ¬ (st.iter ≤ k ∧ k < st.iter + (n + 1)) := by omega
          rw [if_neg hlt, if_neg hlt2, Function.iterate_succ_apply]

end LoopLemmas

/-! ## The part of `main` before the loop -/

section SetupLemmas

variable (P : Nat) (w : World) (n : Nat)

theorem mainWith_traceExporter_fails (e : String) (h : w.traceExporterErr = some e) :
    (mainWith P w n).status = .exited 1 ∧
    (mainWith P w n).events =
      [.setenv "OTEL_GO_X_DEPRECATED_RUNTIME_METRICS" "true",
       .newResource (newResource w.detection).2.isSome,
       .newTraceExporter otlpAddress true,
       .fatal ("failed to initialize exporter: " ++ e)] := by
  simp [mainWith, setup, h, Result.events, State.emit, State.init]

theorem mainWith_metricExporter_fails (e : String) (ht : w.traceExporterErr = none)
    (h : w.metricExporterErr = some e) :
    (mainWith P w n).status = .exited 1 ∧
    (mainWith P w n).events =
      [.setenv "OTEL_GO_X_DEPRECATED_RUNTIME_METRICS" "true",
       .newResource (newResource w.detection).2.isSome,
       .newTraceExporter otlpAddress false,
       .newTracerProvider (newResource w.detection).1,
       .setTracerProvider,
       .newMetricExporter true true,
       .fatal ("failed to create metric exporter: " ++ e)] := by
  simp [mainWith, setup, setupMetrics, useOTLPMetricsExporter, ht, h, Result.events,
    State.emit, State.init, State.defer]

theorem mainWith_runtimeStart_fails (e : String) (ht : w.traceExporterErr = none)
    (hm : w.metricExporterErr = none) (h : w.runtimeStartErr = some e) :
    (mainWith P w n).status = .exited 1 ∧
    (mainWith P w n).events = setupEvents w ++ [.fatal e] := by
  simp [mainWith, setup, setupMetrics, useOTLPMetricsExporter, ht, hm, h, Result.events,
    State.emit, State.init, State.defer, setupEvents]

/-- When no call before the loop fails, `main` enters the loop with the three
deferred functions stacked, `ctx` set to the notify context, and the clock
at 0. -/
theorem setup_ok (ht : w.traceExporterErr = none) (hm : w.metricExporterErr = none)
    (h : w.runtimeStartErr = none) :
    ∃ st, setup w = .ok st ∧ st.trace = (setupEvents w).map (fun e => (0, e)) ∧
      st.defers = [.cancel, .mpShutdown, .tpShutdown] ∧ st.ctx = .notify ∧
      st.stopped = false ∧ st.clock = 0 ∧ st.iter = 0 := by
  simp [setup, setupMetrics, useOTLPMetricsExporter, ht, hm, h,
    State.emit, State.init, State.defer, setupEvents]

end SetupLemmas

/-! ## The shapes of a run -/

theorem unwind_full (w : World) (st : State) (hctx : st.ctx = .notify) :
    (unwind w [.cancel, .mpShutdown, .tpShutdown] st).final.trace =
        st.trace ++ ([Event.cancel,
          .meterShutdown .background false w.meterShutdownErr.isSome] ++
          (match w.meterShutdownErr with
           | some e => [.fatal e]
           | none => [.tracerShutdown .notify true])).map (fun e => (st.clock, e)) ∧
    (unwind w [.cancel, .mpShutdown, .tpShutdown] st).status = unwindStatus w := by
  cases h : w.meterShutdownErr <;>
    simp [unwind, h, State.emit, State.cancelled, hctx, unwindStatus]

/-- A run that is still in the loop after `n` iterations. -/
theorem mainWith_running (P : Nat) (w : World) (n : Nat)
    (ht : w.traceExporterErr = none) (hm : w.metricExporterErr = none)
    (hr : w.runtimeStartErr = none) (hp : ∀ k, w.panicAt = some k → n ≤ k) :
    ∃ st, setup w = .ok st ∧ st.trace = (setupEvents w).map (fun e => (0, e)) ∧
      st.ctx = .notify ∧ st.stopped = false ∧ st.clock = 0 ∧
      mainWith P w n = ⟨(loopBody P w)^[n] st, .running⟩ := by
  obtain ⟨st, hst, htr, hd, hc, hs, hcl, hi⟩ := setup_ok w ht hm hr
  refine ⟨st, hst, htr, hc, hs, hcl, ?_⟩
  simp only [mainWith, hst, loop_eq]
  cases h : w.panicAt with
  | none => rfl
  | some k =>
    have := hp k h
    have hk : ¬ (st.iter ≤ k ∧ k < st.iter + n) := by omega
    simp only [if_neg hk]

/-- A run in which the call to `Start` panics in iteration `k`, within the
observed iterations: `main` unwinds. -/
theorem mainWith_unwound (P : Nat) (w : World) (n k : Nat)
    (ht : w.traceExporterErr = none) (hm : w.metricExporterErr = none)
    (hr : w.runtimeStartErr = none) (hp : w.panicAt = some k) (hk : k < n) :
    (∃ ext, (mainWith P w n).events = setupEvents w ++ ext ++ unwindEvents w ∧
      ∀ e ∈ ext, e.inLoop = true) ∧
    (mainWith P w n).status = unwindStatus w := by
  obtain ⟨st, hst, htr, hd, hc, hs, hcl, hi⟩ := setup_ok w ht hm hr
  have hk2 : st.iter ≤ k ∧ k < st.iter + n := by omega
  obtain ⟨ext, hext, hloop⟩ := iterate_trace P w (k - st.iter) st
  obtain ⟨-, g2, -, -, -⟩ := iterate_fields P w (k - st.iter) st
  have hu := unwind_full w
    ((((loopBody P w)^[k - st.iter] st).emit (.print "Sending trace...\n")).emit .panicked)
    (by simp [State.emit, g2, hc])
  simp only [mainWith, hst, loop_eq, hp, if_pos hk2, hd]
  refine ⟨⟨ext.map Prod.snd, ?_, ?_⟩, hu.2⟩
  · rw [Result.events, hu.1]
    simp [State.emit, hext, htr, unwindEvents, Function.comp_def]
  · intro e he
    rw [List.mem_map] at he
    obtain ⟨te, hte, rfl⟩ := he
    exact hloop te hte

/-- The five shapes of a run of `main`: it exits at the trace exporter, at the
metric exporter, or at the runtime instrumentation; or it is still in the
loop; or it has unwound. -/
theorem mainWith_shape (P : Nat) (w : World) (n : Nat) :
    (∃ e, (mainWith P w n).status = .exited 1 ∧
      (mainWith P w n).events =
        [.setenv "OTEL_GO_X_DEPRECATED_RUNTIME_METRICS" "true",
         .newResource (newResource w.detection).2.isSome,
         .newTraceExporter otlpAddress true,
         .fatal ("failed to initialize exporter: " ++ e)]) ∨
    (∃ e, (mainWith P w n).status = .exited 1 ∧
      (mainWith P w n).events =
        [.setenv "OTEL_GO_X_DEPRECATED_RUNTIME_METRICS" "true",
         .newResource (newResource w.detection).2.isSome,
         .newTraceExporter otlpAddress false,
         .newTracerProvider (newResource w.detection).1,
         .setTracerProvider,
         .newMetricExporter true true,
         .fatal ("failed to create metric exporter: " ++ e)]) ∨
    (∃ e, w.runtimeStartErr = some e ∧ (mainWith P w n).status = .exited 1 ∧
      (mainWith P w n).events = setupEvents w ++ [.fatal e]) ∨
    (w.runtimeStartErr = none ∧ (mainWith P w n).status = .running ∧
      ∃ ext, (mainWith P w n).events = setupEvents w ++ ext ∧
        ∀ e ∈ ext, e.inLoop = true) ∨
    (w.runtimeStartErr = none ∧ (mainWith P w n).status = unwindStatus w ∧
      ∃ ext, (mainWith P w n).events = setupEvents w ++ ext ++ unwindEvents w ∧
        ∀ e ∈ ext, e.inLoop = true) := by
  cases ht : w.traceExporterErr with
  | some e => exact Or.inl ⟨e, mainWith_traceExporter_fails P w n e ht⟩
  | none =>
    cases hm : w.metricExporterErr with
    | some e => exact Or.inr (Or.inl ⟨e, mainWith_metricExporter_fails P w n e ht hm⟩)
    | none =>
      cases hr : w.runtimeStartErr with
      | some e =>
        exact Or.inr (Or.inr (Or.inl ⟨e, rfl, mainWith_runtimeStart_fails P w n e ht hm hr⟩))
      | none =>
        by_cases hp : ∃ k, w.panicAt = some k ∧ k < n
        · obtain ⟨k, hk, hkn⟩ := hp
          obtain ⟨h1, h2⟩ := mainWith_unwound P w n k ht hm hr hk hkn
          exact Or.inr (Or.inr (Or.inr (Or.inr ⟨rfl, h2, h1⟩)))
        · have hp2 : ∀ k, w.panicAt = some k → n ≤ k := by
            intro k hk
            by_contra hlt
            exact hp ⟨k, hk, by omega⟩
          obtain ⟨st, -, htr, -, -, -, hmain⟩ := mainWith_running P w n ht hm hr hp2
          obtain ⟨ext, hext, hloop⟩ := iterate_trace P w n st
          refine Or.inr (Or.inr (Or.inr (Or.inl ⟨rfl, by rw [hmain], ext.map Prod.snd, ?_, ?_⟩)))
          · rw [hmain]
            simp [Result.events, hext, htr, Function.comp_def]
          · intro e he
            rw [List.mem_map] at he
            obtain ⟨te, hte, rfl⟩ := he
            exact hloop te hte

theorem filterMap_shutdownOf_inLoop (ext : List Event) (h : ∀ e ∈ ext, e.inLoop = true) :
    ext.filterMap Event.shutdownOf = [] := by
  rw [List.filterMap_eq_nil_iff]
  intro e he
  have := h e he
  cases e <;> simp_all [Event.inLoop, Event.shutdownOf]

theorem filterMap_shutdownOf_setupEvents (w : World) :
    (setupEvents w).filterMap Event.shutdownOf = [] := by
  simp [setupEvents, Event.shutdownOf]

theorem not_mem_of_inLoop (ext : List Event) (h : ∀ e ∈ ext, e.inLoop = true) (e : Event)
    (he : e.inLoop = false) : e ∉ ext := by
  intro hmem
  rw [h e hmem] at he
  exact Bool.noConfusion he

/-! ## Shutdown -/

/-- Claim C1: in every run of `main` in which `main` unwinds, so that its
deferred functions run, and in which the shutdown of the meter provider returns
no error, `Shutdown` is invoked on the meter provider, then on the tracer
provider, and on each of them once. -/
theorem shutdown_meter_before_tracer (w : World) (n : Nat)
    (hrun : Event.panicked ∈ (main w n).events) (hok : w.meterShutdownErr = none) :
    (main w n).events.filterMap Event.shutdownOf = [.meter, .tracer] := by
  unfold main at hrun ⊢
  rcases mainWith_shape sleepPeriod w n with
    ⟨e, -, h⟩ | ⟨e, -, h⟩ | ⟨e, -, -, h⟩ | ⟨-, -, ext, h, hl⟩ | ⟨-, -, ext, h, hl⟩
  · simp [h] at hrun
  · simp [h] at hrun
  · simp [h, setupEvents] at hrun
  · have := not_mem_of_inLoop ext hl .panicked rfl
    simp [h, setupEvents, this] at hrun
  · rw [h, List.filterMap_append, List.filterMap_append, filterMap_shutdownOf_setupEvents,
      filterMap_shutdownOf_inLoop ext hl]
    simp [unwindEvents, hok, Event.shutdownOf]

theorem shutdown_meter_before_tracer_witness :
    Event.panicked ∈ (main panicWorld 3).events ∧ panicWorld.meterShutdownErr = none ∧
    (main panicWorld 3).events.filterMap Event.shutdownOf = [.meter, .tracer] :=
  ⟨by decide, rfl, shutdown_meter_before_tracer panicWorld 3 (by decide) rfl⟩

/-- Claim C2, on the code: when `main` unwinds and the shutdown of the meter
provider returns an error, `log.Fatal` in the deferred closure ends the process
with status 1 and `Shutdown` is never invoked on the tracer provider. -/
theorem meter_shutdown_error_skips_tracer_shutdown :
    Event.panicked ∈ (main failingShutdownWorld 1).events ∧
    (main failingShutdownWorld 1).events.filterMap Event.shutdownOf = [.meter] ∧
    (∀ c b, Event.tracerShutdown c b ∉ (main failingShutdownWorld 1).events) ∧
    (main failingShutdownWorld 1).status = .exited 1 := by
  refine ⟨by decide, by decide, ?_, by decide⟩
  intro c b
  cases c <;> cases b <;> decide

/-- Claim C10: at the entry of the loop the stack of deferred functions is, from
the top, the stop function `cancel`, the shutdown of the meter provider, the
shutdown of the tracer provider, and when `main` unwinds they run in that
order; every `Shutdown` of the tracer provider is called with the notify
context, already cancelled, and every `Shutdown` of the meter provider with a
background context, not cancelled. -/
theorem deferred_stack_and_contexts :
    (∀ w st, setup w = .ok st → st.defers = [.cancel, .mpShutdown, .tpShutdown]) ∧
    (∀ w n, Event.panicked ∈ (main w n).events →
      ∃ pre, (main w n).events = pre ++ unwindEvents w ∧
        Event.cancel ∉ pre ∧ pre.filterMap Event.shutdownOf = []) ∧
    (∀ w n c b, Event.tracerShutdown c b ∈ (main w n).events → c = .notify ∧ b = true) ∧
    (∀ w n c b f, Event.meterShutdown c b f ∈ (main w n).events →
      c = .background ∧ b = false) := by
  refine ⟨?_, ?_, ?_, ?_⟩
  · intro w st h
    cases ht : w.traceExporterErr with
    | some e => simp [setup, ht] at h
    | none =>
      cases hm : w.metricExporterErr with
      | some e => simp [setup, setupMetrics, useOTLPMetricsExporter, ht, hm] at h
      | none =>
        cases hr : w.runtimeStartErr with
        | some e => simp [setup, setupMetrics, useOTLPMetricsExporter, ht, hm, hr] at h
        | none =>
          obtain ⟨st2, hst, -, hd, -⟩ := setup_ok w ht hm hr
          rw [hst] at h
          cases h
          exact hd
  · intro w n hrun
    unfold main at hrun ⊢
    rcases mainWith_shape sleepPeriod w n with
      ⟨e, -, h⟩ | ⟨e, -, h⟩ | ⟨e, -, -, h⟩ | ⟨-, -, ext, h, hl⟩ | ⟨-, -, ext, h, hl⟩
    · simp [h] at hrun
    · simp [h] at hrun
    · simp [h, setupEvents] at hrun
    · have := not_mem_of_inLoop ext hl .panicked rfl
      simp [h, setupEvents, this] at hrun
    · refine ⟨setupEvents w ++ ext, h, ?_, ?_⟩
      · have := not_mem_of_inLoop ext hl .cancel rfl
        simp [setupEvents, this]
      · rw [List.filterMap_append, filterMap_shutdownOf_setupEvents,
          filterMap_shutdownOf_inLoop ext hl]
        rfl
  · intro w n c b hmem
    unfold main at hmem
    rcases mainWith_shape sleepPeriod w n with
      ⟨e, -, h⟩ | ⟨e, -, h⟩ | ⟨e, -, -, h⟩ | ⟨-, -, ext, h, hl⟩ | ⟨-, -, ext, h, hl⟩
    · simp [h] at hmem
    · simp [h] at hmem
    · simp [h, setupEvents] at hmem
    · have := not_mem_of_inLoop ext hl (.tracerShutdown c b) rfl
      simp [h, setupEvents, this] at hmem
    · have := not_mem_of_inLoop ext hl (.tracerShutdown c b) rfl
      cases hs : w.meterShutdownErr <;>
        simp [h, setupEvents, this, unwindEvents, hs] at hmem
      exact hmem
  · intro w n c b f hmem
    unfold main at hmem
    rcases mainWith_shape sleepPeriod w n with
      ⟨e, -, h⟩ | ⟨e, -, h⟩ | ⟨e, -, -, h⟩ | ⟨-, -, ext, h, hl⟩ | ⟨-, -, ext, h, hl⟩
    · simp [h] at hmem
    · simp [h] at hmem
    · simp [h, setupEvents] at hmem
    · have := not_mem_of_inLoop ext hl (.meterShutdown c b f) rfl
      simp [h, setupEvents, this] at hmem
    · have := not_mem_of_inLoop ext hl (.meterShutdown c b f) rfl
      cases hs : w.meterShutdownErr <;>
        simp [h, setupEvents, this, unwindEvents, hs] at hmem <;>
        exact ⟨hmem.1, hmem.2.1⟩

theorem deferred_stack_and_contexts_witness :
    (∃ st, setup panicWorld = .ok st ∧ st.defers = [.cancel, .mpShutdown, .tpShutdown]) ∧
    Event.panicked ∈ (main panicWorld 3).events ∧
    Event.tracerShutdown .notify true ∈ (main panicWorld 3).events ∧
    Event.meterShutdown .background false false ∈ (main panicWorld 3).events ∧
    (∃ pre, (main panicWorld 3).events = pre ++ unwindEvents panicWorld ∧
        Event.cancel ∉ pre ∧ pre.filterMap Event.shutdownOf = []) :=
  ⟨by
      obtain ⟨st, hst, -, hd, -⟩ := setup_ok panicWorld rfl rfl rfl
      exact ⟨st, hst, deferred_stack_and_contexts.1 panicWorld st hst⟩,
    by decide, by decide, by decide,
    deferred_stack_and_contexts.2.1 panicWorld 3 (by decide)⟩

/-! ## Spans -/

theorem iterate_countP_spanStart (P : Nat) (w : World) (n : Nat) (st : State) :
    ((loopBody P w)^[n] st).trace.countP (fun te => te.2.isSpanStart) =
      st.trace.countP (fun te => te.2.isSpanStart) + n := by
  induction n generalizing st with
  | zero => simp
  | succ n ih =>
    rw [Function.iterate_succ_apply, ih, loopBody_trace]
    simp [List.countP_append, List.countP_cons, Event.isSpanStart]
    omega

theorem iterate_countP_spanEnd (P : Nat) (w : World) (n : Nat) (st : State) :
    ((loopBody P w)^[n] st).trace.countP (fun te => te.2.isSpanEnd) =
      st.trace.countP (fun te => te.2.isSpanEnd) + n := by
  induction n generalizing st with
  | zero => simp
  | succ n ih =>
    rw [Function.iterate_succ_apply, ih, loopBody_trace]
    simp [List.countP_append, List.countP_cons, Event.isSpanEnd]
    omega

/-- The spans started up to time `D` by `n` iterations of the loop. -/
theorem iterate_spansBy (P : Nat) (hP : 0 < P) (w : World) (D n : Nat) (st : State) :
    ((loopBody P w)^[n] st).trace.countP (fun te => decide (te.1 ≤ D) && te.2.isSpanStart) =
      st.trace.countP (fun te => decide (te.1 ≤ D) && te.2.isSpanStart) +
        (if st.clock ≤ D then min n ((D - st.clock) / P + 1) else 0) := by
  induction n generalizing st with
  | zero => simp
  | succ n ih =>
    obtain ⟨-, -, -, g4, -⟩ := loopBody_fields P w st
    rw [Function.iterate_succ_apply, ih, g4, loopBody_trace]
    by_cases hc : st.clock ≤ D
    · by_cases hc2 : st.clock + P ≤ D
      · have hdiv : (D - st.clock) / P = (D - (st.clock + P)) / P + 1 := by
          have : D - st.clock = (D - (st.clock + P)) + P := by omega
          rw [this, Nat.add_div_right _ hP]
        simp [List.countP_append, List.countP_cons, Event.isSpanStart, hc, hc2, hdiv]
        omega
      · have hdiv : (D - st.clock) / P = 0 := by
          apply Nat.div_eq_of_lt
          omega
        simp [List.countP_append, List.countP_cons, Event.isSpanStart, hc, hc2, hdiv]
    · have hc2 : ¬ (st.clock + P ≤ D) := by omega
      simp [List.countP_append, List.countP_cons, Event.isSpanStart, hc, hc2]

theorem countP_setupEvents (w : World) (q : Nat × Event → Bool)
    (hq : ∀ te, q te = true → te.2.isSpanStart = true ∨ te.2.isSpanEnd = true) :
    ((setupEvents w).map (fun e => ((0 : Nat), e))).countP q = 0 := by
  rw [List.countP_eq_zero]
  intro te hte
  rw [List.mem_map] at hte
  obtain ⟨e, he, rfl⟩ := hte
  intro hqt
  have := hq _ hqt
  simp [setupEvents] at he
  rcases he with h | h | h | h | h | h | h | h | h | h | h | h <;>
    simp [h, Event.isSpanStart, Event.isSpanEnd] at this

theorem iterate_spanStart_names (P : Nat) (w : World) (n : Nat) (st : State)
    (t nm : String) (c : Ctx) (b : Bool) (time : Nat)
    (h : (time, Event.spanStart t nm c b) ∈ ((loopBody P w)^[n] st).trace) :
    (time, Event.spanStart t nm c b) ∈ st.trace ∨ (t = tracerName ∧ nm = spanName) := by
  induction n generalizing st with
  | zero => exact Or.inl h
  | succ n ih =>
    rw [Function.iterate_succ_apply] at h
    rcases ih (loopBody P w st) h with h2 | h2
    · rw [loopBody_trace] at h2
      simp at h2
      rcases h2 with h2 | h2
      · exact Or.inl h2
      · exact Or.inr ⟨h2.2.1, h2.2.2.1⟩
    · exact Or.inr h2

/-- A run whose status is `running` after `n` observed iterations has passed
the part before the loop and completed `n` iterations. -/
theorem mainWith_of_running (P : Nat) (w : World) (n : Nat)
    (h : (mainWith P w n).status = .running) :
    ∃ st, st.trace = (setupEvents w).map (fun e => (0, e)) ∧ st.clock = 0 ∧
      mainWith P w n = ⟨(loopBody P w)^[n] st, .running⟩ := by
  cases ht : w.traceExporterErr with
  | some e => rw [(mainWith_traceExporter_fails P w n e ht).1] at h; cases h
  | none =>
    cases hm : w.metricExporterErr with
    | some e => rw [(mainWith_metricExporter_fails P w n e ht hm).1] at h; cases h
    | none =>
      cases hr : w.runtimeStartErr with
      | some e => rw [(mainWith_runtimeStart_fails P w n e ht hm hr).1] at h; cases h
      | none =>
        by_cases hp : ∃ k, w.panicAt = some k ∧ k < n
        · obtain ⟨k, hk, hkn⟩ := hp
          rw [(mainWith_unwound P w n k ht hm hr hk hkn).2] at h
          cases hs : w.meterShutdownErr <;> simp [unwindStatus, hs] at h
        · have hp2 : ∀ k, w.panicAt = some k → n ≤ k := by
            intro k hk
            by_contra hlt
            exact hp ⟨k, hk, by omega⟩
          obtain ⟨st, -, htr, -, -, hcl, hmain⟩ := mainWith_running P w n ht hm hr hp2
          exact ⟨st, htr, hcl, hmain⟩

/-- What holds of a run at every iteration boundary. -/
theorem running_facts (P : Nat) (w : World) (n : Nat)
    (h : (mainWith P w n).status = .running) :
    (mainWith P w n).spansStarted = n ∧ openSpans (mainWith P w n).events = 0 ∧
    (mainWith P w n).final.clock = n * P ∧
    (∀ t nm c b, Event.spanStart t nm c b ∈ (mainWith P w n).events →
      t = tracerName ∧ nm = spanName) := by
  obtain ⟨st, htr, hcl, hmain⟩ := mainWith_of_running P w n h
  have h0 : st.trace.countP (fun te => te.2.isSpanStart) = 0 := by
    rw [htr]; exact countP_setupEvents w _ (fun te hq => Or.inl hq)
  have h1 : st.trace.countP (fun te => te.2.isSpanEnd) = 0 := by
    rw [htr]; exact countP_setupEvents w _ (fun te hq => Or.inr hq)
  have hs := iterate_countP_spanStart P w n st
  have he := iterate_countP_spanEnd P w n st
  rw [h0] at hs
  rw [h1] at he
  have hcs : (mainWith P w n).events.countP Event.isSpanStart = n := by
    rw [hmain, Result.events, List.countP_map]
    simpa [Function.comp_def] using hs
  have hce : (mainWith P w n).events.countP Event.isSpanEnd = n := by
    rw [hmain, Result.events, List.countP_map]
    simpa [Function.comp_def] using he
  refine ⟨hcs, ?_, ?_, ?_⟩
  · rw [openSpans, hcs, hce]; simp
  · rw [hmain]
    obtain ⟨-, -, -, g4, -⟩ := iterate_fields P w n st
    rw [g4, hcl]; simp
  · intro t nm c b hmem
    rw [hmain, Result.events, List.mem_map] at hmem
    obtain ⟨te, hte, hte2⟩ := hmem
    obtain ⟨time, e⟩ := te
    simp only at hte2
    subst hte2
    rcases iterate_spanStart_names P w n st t nm c b time hte with h2 | h2
    · rw [htr] at h2
      simp [setupEvents] at h2
    · exact h2

/-- The spans a run still in its loop has started by time `D`, once the run has
lasted longer than `D`. -/
theorem spansBy_eq (P D : Nat) (hP : 0 < P) (w : World) (n : Nat)
    (h : (mainWith P w n).status = .running) (hD : D < (mainWith P w n).final.clock) :
    (mainWith P w n).spansBy D = D / P + 1 := by
  obtain ⟨st, htr, hcl, hmain⟩ := mainWith_of_running P w n h
  have hclock := (running_facts P w n h).2.2.1
  rw [hclock] at hD
  have hlt : D / P < n := by
    rw [Nat.div_lt_iff_lt_mul hP]
    exact hD
  have h0 : st.trace.countP (fun te => decide (te.1 ≤ D) && te.2.isSpanStart) = 0 := by
    rw [htr]
    exact countP_setupEvents w _ (fun te hq => Or.inl (by simp at hq; exact hq.2))
  rw [Result.spansBy, hmain, iterate_spansBy P hP w D n st, h0, hcl]
  simp
  omega

/-- Claim C7: for every period `P > 0` and every duration `D`, a run that is in
its loop and has lasted longer than `D` has started, up to time `D`, a number
of spans between `floor(D/P) - 1` and `floor(D/P) + 1`; so has `main`, whose
period is 30 seconds, for every `D`. -/
theorem span_count_within_one_of_quotient :
    (∀ (P D : Nat) (w : World) (n : Nat), 0 < P →
      (mainWith P w n).status = .running → D < (mainWith P w n).final.clock →
      ((D / P : Nat) : Int) - 1 ≤ ((mainWith P w n).spansBy D : Int) ∧
      ((mainWith P w n).spansBy D : Int) ≤ ((D / P : Nat) : Int) + 1) ∧
    (∀ (D : Nat) (w : World) (n : Nat),
      (main w n).status = .running → D < (main w n).final.clock →
      ((D / 30 : Nat) : Int) - 1 ≤ ((main w n).spansBy D : Int) ∧
      ((main w n).spansBy D : Int) ≤ ((D / 30 : Nat) : Int) + 1) := by
  refine ⟨?_, ?_⟩
  · intro P D w n hP hrun hD
    rw [spansBy_eq P D hP w n hrun hD]
    constructor <;> push_cast <;> omega
  · intro D w n hrun hD
    unfold main at hrun hD ⊢
    rw [spansBy_eq sleepPeriod D (by decide) w n hrun hD]
    simp only [sleepPeriod]
    constructor <;> push_cast <;> omega

theorem span_count_within_one_of_quotient_witness :
    (mainWith 7 interruptWorld 4).status = .running ∧
    20 < (mainWith 7 interruptWorld 4).final.clock ∧
    (((20 / 7 : Nat) : Int) - 1 ≤ ((mainWith 7 interruptWorld 4).spansBy 20 : Int) ∧
      ((mainWith 7 interruptWorld 4).spansBy 20 : Int) ≤ ((20 / 7 : Nat) : Int) + 1) ∧
    (main interruptWorld 3).status = .running ∧
    65 < (main interruptWorld 3).final.clock ∧
    (((65 / 30 : Nat) : Int) - 1 ≤ ((main interruptWorld 3).spansBy 65 : Int) ∧
      ((main interruptWorld 3).spansBy 65 : Int) ≤ ((65 / 30 : Nat) : Int) + 1) :=
  ⟨by decide, by decide,
    span_count_within_one_of_quotient.1 7 20 interruptWorld 4 (by decide) (by decide)
      (by decide),
    by decide, by decide,
    span_count_within_one_of_quotient.2 65 interruptWorld 3 (by decide) (by decide)⟩

/-- Claim C8: every iteration of the loop starts one span, under the tracer name
"otelruntimemetrics.service.tracer" and with the span name "MyTrace", and ends
it before it sleeps; at every iteration boundary the run has started as many
spans as it has completed iterations, all under those names, and none of them
is open. -/
theorem one_closed_span_per_iteration :
    (∀ (P : Nat) (w : World) (st : State),
      (loopBody P w st).trace = st.trace ++
        [(st.clock, .print "Sending trace...\n"),
         (st.clock, .spanStart "otelruntimemetrics.service.tracer" "MyTrace" st.ctx
            (st.cancelled w st.ctx)),
         (st.clock, .spanEnd),
         (st.clock, .print "Sleeping...\n"),
         (st.clock, .sleep P)]) ∧
    (∀ (w : World) (n : Nat), (main w n).status = .running →
      (main w n).spansStarted = n ∧ openSpans (main w n).events = 0 ∧
      ∀ t nm c b, Event.spanStart t nm c b ∈ (main w n).events →
        t = "otelruntimemetrics.service.tracer" ∧ nm = "MyTrace") := by
  refine ⟨fun P w st => loopBody_trace P w st, ?_⟩
  intro w n hrun
  obtain ⟨h1, h2, -, h4⟩ := running_facts sleepPeriod w n hrun
  exact ⟨h1, h2, h4⟩

theorem one_closed_span_per_iteration_witness :
    (main interruptWorld 4).status = .running ∧
    (main interruptWorld 4).spansStarted = 4 ∧ openSpans (main interruptWorld 4).events = 0 ∧
    Event.spanStart "otelruntimemetrics.service.tracer" "MyTrace" .notify true ∈
      (main interruptWorld 4).events :=
  ⟨by decide, (one_closed_span_per_iteration.2 interruptWorld 4 (by decide)).1,
    (one_closed_span_per_iteration.2 interruptWorld 4 (by decide)).2.1, by decide⟩

/-- Claim C3, on the code: with every call succeeding and an interrupt delivered
65 seconds after the start, three spans are started before the interrupt, and
then the loop goes on: after any number `n` of iterations the process is still
running, it has started `n` spans, the fourth of them 90 seconds after the
start with the cancelled context, and `Shutdown` has been invoked on neither
provider. -/
theorem interrupt_does_not_end_the_loop :
    (main interruptWorld 3).spansBy 65 = 3 ∧
    (90, Event.spanStart tracerName spanName .notify true) ∈
      (main interruptWorld 4).final.trace ∧
    ∀ n, (main interruptWorld n).status = .running ∧
      (main interruptWorld n).spansStarted = n ∧
      (main interruptWorld n).events.filterMap Event.shutdownOf = [] := by
  refine ⟨by decide, by decide, ?_⟩
  intro n
  obtain ⟨st, -, -, -, -, -, hmain⟩ :=
    mainWith_running sleepPeriod interruptWorld n rfl rfl rfl (fun k hk => by cases hk)
  have hrun : (mainWith sleepPeriod interruptWorld n).status = .running := by rw [hmain]
  refine ⟨hrun, (running_facts sleepPeriod interruptWorld n hrun).1, ?_⟩
  unfold main
  rcases mainWith_shape sleepPeriod interruptWorld n with
    ⟨e, h, -⟩ | ⟨e, h, -⟩ | ⟨e, -, h, -⟩ | ⟨-, -, ext, h, hl⟩ | ⟨-, h, -⟩
  · rw [hrun] at h; cases h
  · rw [hrun] at h; cases h
  · rw [hrun] at h; cases h
  · rw [h, List.filterMap_append, filterMap_shutdownOf_setupEvents,
      filterMap_shutdownOf_inLoop ext hl]
    rfl
  · rw [hrun] at h; simp [unwindStatus, interruptWorld, calm] at h

/-! ## Failures before the loop -/

/-- Claim C9: in every run in which `runtime.Start` returns an error, the
process ends through `log.Fatal` with status 1 after both providers have been
created and registered; no deferred function runs, so `Shutdown` is invoked on
neither provider, and no span is started. -/
theorem runtime_start_error_exits_without_shutdown (w : World) (n : Nat)
    (h : ∃ i, Event.runtimeStart i true ∈ (main w n).events) :
    (main w n).status = .exited 1 ∧
    (∃ pre e, (main w n).events = pre ++ [.fatal e] ∧
      (∃ res, Event.newTracerProvider res ∈ pre) ∧ pre.count .setTracerProvider = 1 ∧
      (∃ res, Event.newMeterProvider res ∈ pre) ∧ pre.count .setMeterProvider = 1) ∧
    (main w n).events.filterMap Event.shutdownOf = [] ∧
    Event.cancel ∉ (main w n).events ∧
    (main w n).spansStarted = 0 := by
  obtain ⟨i, hmem⟩ := h
  unfold main at hmem ⊢
  rcases mainWith_shape sleepPeriod w n with
    ⟨e, -, h⟩ | ⟨e, -, h⟩ | ⟨e, hr, hst, h⟩ | ⟨hr, -, ext, h, hl⟩ | ⟨hr, -, ext, h, hl⟩
  · simp [h] at hmem
  · simp [h] at hmem
  · refine ⟨hst, ⟨setupEvents w, e, h, ?_, ?_, ?_, ?_⟩, ?_, ?_, ?_⟩
    · exact ⟨(newResource w.detection).1, by simp [setupEvents]⟩
    · simp [setupEvents, List.count_cons]
    · exact ⟨(newResource w.detection).1, by simp [setupEvents]⟩
    · simp [setupEvents, List.count_cons]
    · rw [h, List.filterMap_append, filterMap_shutdownOf_setupEvents]
      rfl
    · simp [h, setupEvents]
    · simp [Result.spansStarted, h, setupEvents, List.countP_cons, Event.isSpanStart]
  · have := not_mem_of_inLoop ext hl (.runtimeStart i true) rfl
    simp [h, setupEvents, this, hr] at hmem
  · have := not_mem_of_inLoop ext hl (.runtimeStart i true) rfl
    cases hs : w.meterShutdownErr <;>
      simp [h, setupEvents, this, hr, unwindEvents, hs] at hmem

theorem runtime_start_error_exits_without_shutdown_witness :
    (∃ i, Event.runtimeStart i true ∈ (main runtimeStartFailsWorld 2).events) ∧
    (main runtimeStartFailsWorld 2).status = .exited 1 ∧
    (main runtimeStartFailsWorld 2).events.filterMap Event.shutdownOf = [] ∧
    (main runtimeStartFailsWorld 2).spansStarted = 0 :=
  ⟨⟨10, by decide⟩,
    (runtime_start_error_exits_without_shutdown runtimeStartFailsWorld 2 ⟨10, by decide⟩).1,
    (runtime_start_error_exits_without_shutdown runtimeStartFailsWorld 2
      ⟨10, by decide⟩).2.2.1,
    (runtime_start_error_exits_without_shutdown runtimeStartFailsWorld 2
      ⟨10, by decide⟩).2.2.2.2⟩

/-- Claim C5 fails as stated: when the construction of the metric exporter
fails, the process exits with status 1 and `otel.SetTracerProvider` has been
called. -/
theorem metric_exporter_failure_after_tracer_registration :
    (∃ o, Event.newMetricExporter o true ∈ (main metricExporterFailsWorld 0).events) ∧
    (main metricExporterFailsWorld 0).status = .exited 1 ∧
    ¬ NoProviderRegistered (main metricExporterFailsWorld 0) := by
  refine ⟨⟨true, by decide⟩, by decide, ?_⟩
  intro h
  exact h.1 (by decide)

/-- Claim C5, amended: in every run in which the construction of the trace
exporter fails, the process exits with status 1 and no provider has been
registered; in every run in which the construction of the metric exporter
fails, the process exits with status 1, `otel.SetTracerProvider` has been
called once and `otel.SetMeterProvider` has not been called. -/
theorem exporter_failure_is_fatal (w : World) (n : Nat) :
    ((∃ ep, Event.newTraceExporter ep true ∈ (main w n).events) →
      (main w n).status = .exited 1 ∧ NoProviderRegistered (main w n)) ∧
    ((∃ o, Event.newMetricExporter o true ∈ (main w n).events) →
      (main w n).status = .exited 1 ∧ (main w n).events.count .setTracerProvider = 1 ∧
      Event.setMeterProvider ∉ (main w n).events) := by
  unfold main
  rcases mainWith_shape sleepPeriod w n with
    ⟨e, hst, h⟩ | ⟨e, hst, h⟩ | ⟨e, hr, hst, h⟩ | ⟨hr, -, ext, h, hl⟩ | ⟨hr, -, ext, h, hl⟩
  · refine ⟨fun _ => ⟨hst, ?_⟩, ?_⟩
    · simp [NoProviderRegistered, h]
    · rintro ⟨o, hmem⟩
      simp [h] at hmem
  · refine ⟨?_, fun _ => ⟨hst, ?_, ?_⟩⟩
    · rintro ⟨ep, hmem⟩
      simp [h] at hmem
    · simp [h, List.count_cons]
    · simp [h]
  · refine ⟨?_, ?_⟩
    · rintro ⟨ep, hmem⟩
      simp [h, setupEvents] at hmem
    · rintro ⟨o, hmem⟩
      simp [h, setupEvents] at hmem
  · refine ⟨?_, ?_⟩
    · rintro ⟨ep, hmem⟩
      have := not_mem_of_inLoop ext hl (.newTraceExporter ep true) rfl
      simp [h, setupEvents, this] at hmem
    · rintro ⟨o, hmem⟩
      have := not_mem_of_inLoop ext hl (.newMetricExporter o true) rfl
      simp [h, setupEvents, this] at hmem
  · refine ⟨?_, ?_⟩
    · rintro ⟨ep, hmem⟩
      have := not_mem_of_inLoop ext hl (.newTraceExporter ep true) rfl
      cases hs : w.meterShutdownErr <;>
        simp [h, setupEvents, this, unwindEvents, hs] at hmem
    · rintro ⟨o, hmem⟩
      have := not_mem_of_inLoop ext hl (.newMetricExporter o true) rfl
      cases hs : w.meterShutdownErr <;>
        simp [h, setupEvents, this, unwindEvents, hs] at hmem

theorem exporter_failure_is_fatal_witness :
    (∃ ep, Event.newTraceExporter ep true ∈ (main traceExporterFailsWorld 1).events) ∧
    ((main traceExporterFailsWorld 1).status = .exited 1 ∧
      NoProviderRegistered (main traceExporterFailsWorld 1)) ∧
    (∃ o, Event.newMetricExporter o true ∈ (main metricExporterFailsWorld 1).events) ∧
    ((main metricExporterFailsWorld 1).status = .exited 1 ∧
      (main metricExporterFailsWorld 1).events.count .setTracerProvider = 1 ∧
      Event.setMeterProvider ∉ (main metricExporterFailsWorld 1).events) :=
  ⟨⟨otlpAddress, by decide⟩,
    (exporter_failure_is_fatal traceExporterFailsWorld 1).1 ⟨otlpAddress, by decide⟩,
    ⟨true, by decide⟩,
    (exporter_failure_is_fatal metricExporterFailsWorld 1).2 ⟨true, by decide⟩⟩

/-- Claim C4, on the code: when `newResource` returns an error and every other
call succeeds, `main` goes on: it constructs the trace exporter, creates the
tracer provider with a nil resource and registers it, creates and registers
the meter provider, and enters the loop. -/
theorem resource_error_is_ignored :
    (newResource resourceFailsWorld.detection).1 = none ∧
    (newResource resourceFailsWorld.detection).2.isSome = true ∧
    (main resourceFailsWorld 1).status = .running ∧
    (main resourceFailsWorld 1).events.take 9 =
      [.setenv "OTEL_GO_X_DEPRECATED_RUNTIME_METRICS" "true",
       .newResource true,
       .newTraceExporter otlpAddress false,
       .newTracerProvider none,
       .setTracerProvider,
       .newMetricExporter true false,
       .newPeriodicReader 10,
       .newMeterProvider none,
       .setMeterProvider] ∧
    (main resourceFailsWorld 1).spansStarted = 1 ∧
    (∀ msg, Event.fatal msg ∉ (main resourceFailsWorld 1).events) := by
  refine ⟨by decide, by decide, by decide, by decide, by decide, ?_⟩
  intro msg hmem
  revert hmem
  simp [main, mainWith, setup, setupMetrics, useOTLPMetricsExporter, resourceFailsWorld,
    calm, loop, loopBody, State.emit, State.init, State.defer, Result.events]

/-! ## The resource descriptor -/

/-- The descriptor `newResource` builds from what the detectors return. -/
theorem newResource_ok (d : Detection) (e h : Attrs)
    (he : d.fromEnv = .ok e) (hh : d.host = .ok h) :
    newResource d =
      (some (Merge d.dflt (Merge (Merge (Merge [] identityAttrs) e) h)), d.mergeErr) := by
  simp [newResource, sdkresourceNew, he, hh]

theorem valueOf_merged (dflt e h : Attrs) (k : String) :
    valueOf (Merge dflt (Merge (Merge (Merge [] identityAttrs) e) h)) k =
      keywiseMerge [dflt, identityAttrs, e, h] k := by
  simp only [valueOf_Merge, keywiseMerge, List.foldl]
  cases valueOf h k <;> cases valueOf e k <;> cases valueOf identityAttrs k <;>
    cases valueOf dflt k <;> simp [valueOf]

theorem keywiseMerge_four (dflt e h : Attrs) (k : String) :
    keywiseMerge [dflt, identityAttrs, e, h] k =
      (valueOf h k).or ((valueOf e k).or ((valueOf identityAttrs k).or (valueOf dflt k))) := by
  simp [keywiseMerge]

/-- Claim C6 fails as stated: with `OTEL_SERVICE_NAME` set, detection succeeds
and the descriptor returned by `newResource` is the key-wise merge of its
sources, but it gives `service.name` the value from the environment, not
"client". -/
theorem environment_overrides_identity :
    ∃ r, newResource envOverrideDetection = (some r, none) ∧
      (∀ k, valueOf r k =
        keywiseMerge [envOverrideDetection.dflt, identityAttrs,
          [("service.name", "billing")], [("host.name", "octodev03")]] k) ∧
      valueOf r "service.name" = some "billing" ∧
      ¬ Contains r ("service.name", "client") :=
  ⟨_, newResource_ok envOverrideDetection _ _ rfl rfl,
    fun k => valueOf_merged _ _ _ k, by decide, by decide⟩

/-- Claim C6, amended: when detection and the merge with the default succeed,
the descriptor returned by `newResource` is the key-wise merge of the default,
the three identity attributes, the attributes from the environment and those
of the host, in that order, the later source winning on a key; it contains
every attribute of the host, each identity attribute whose key neither the
environment nor the host sets, and each default attribute whose key no other
source sets. -/
theorem newResource_is_keywise_merge (d : Detection) (e h : Attrs)
    (he : d.fromEnv = .ok e) (hh : d.host = .ok h) (hm : d.mergeErr = none) :
    ∃ r, newResource d = (some r, none) ∧
      (∀ k, valueOf r k =
        keywiseMerge
          [d.dflt,
           [("service.name", "client"), ("service.version", "0.1.0"),
            ("deployment.environment", "dev")],
           e, h] k) ∧
      (∀ kv, Contains h kv → Contains r kv) ∧
      (∀ kv ∈ [(("service.name", "client") : KeyValue), ("service.version", "0.1.0"),
            ("deployment.environment", "dev")],
        valueOf e kv.1 = none → valueOf h kv.1 = none → Contains r kv) ∧
      (∀ kv, Contains d.dflt kv →
        valueOf identityAttrs kv.1 = none → valueOf e kv.1 = none →
        valueOf h kv.1 = none → Contains r kv) := by
  have hval : ∀ k, valueOf (Merge d.dflt (Merge (Merge (Merge [] identityAttrs) e) h)) k =
      (valueOf h k).or ((valueOf e k).or ((valueOf identityAttrs k).or (valueOf d.dflt k))) :=
    fun k => by rw [valueOf_merged, keywiseMerge_four]
  refine ⟨Merge d.dflt (Merge (Merge (Merge [] identityAttrs) e) h), ?_, ?_, ?_, ?_, ?_⟩
  · rw [newResource_ok d e h he hh, hm]
  · intro k
    exact valueOf_merged d.dflt e h k
  · intro kv hkv
    unfold Contains at hkv ⊢
    rw [hval, hkv]
    rfl
  · intro kv hkv h1 h2
    unfold Contains
    rw [hval, h1, h2]
    simp at hkv
    have hid : ∀ kv2 : KeyValue, kv2 ∈ identityAttrs →
        valueOf identityAttrs kv2.1 = some kv2.2 := by decide
    have hmem : kv ∈ identityAttrs := by
      simp only [identityAttrs, serviceName, serviceVersion, env]
      simpa using hkv
    rw [hid kv hmem]
    rfl
  · intro kv hkv h0 h1 h2
    unfold Contains at hkv ⊢
    rw [hval, h0, h1, h2, hkv]
    rfl

theorem newResource_is_keywise_merge_witness :
    envOverrideDetection.fromEnv = .ok [("service.name", "billing")] ∧
    envOverrideDetection.host = .ok [("host.name", "octodev03")] ∧
    envOverrideDetection.mergeErr = none ∧
    ∃ r, newResource envOverrideDetection = (some r, none) ∧
      Contains r ("host.name", "octodev03") ∧ Contains r ("service.version", "0.1.0") ∧
      Contains r ("telemetry.sdk.language", "go") := by
  obtain ⟨r, hr, -, h1, h2, h3⟩ :=
    newResource_is_keywise_merge envOverrideDetection [("service.name", "billing")]
      [("host.name", "octodev03")] rfl rfl rfl
  exact ⟨rfl, rfl, rfl, r, hr, h1 _ (by decide), h2 _ (by simp) (by decide) (by decide),
    h3 _ (by decide) (by decide) (by decide) (by decide)⟩

end OtelRuntimeMetrics
